import Mathlib

/-!
Shallow embedding of the infrastructure deployment descriptor declared in
`src/infra/infra_stack.py` (an AWS CDK stack for the electron-orbital-viewer
static site), together with the toolkit data types the declaration uses.
The stack declares three provider resources — an S3 website bucket, a
CloudFront distribution in front of it, and a bucket-deployment content-sync
action — plus two stack outputs.  The embedding renders the declaration as a
pure function from the stack's construct id to a resource graph, mirroring
the declarative (side-effect-free) nature of the source.
-/

namespace Infra

/-- Removal policy of a provisioned resource (aws_cdk.RemovalPolicy). -/
inductive RemovalPolicy where
  | DESTROY
  | RETAIN
  | SNAPSHOT
  deriving DecidableEq, Repr

/-- S3 block-public-access configuration (aws_cdk.aws_s3.BlockPublicAccess):
four independent switches, as in the provider's data model. -/
structure BlockPublicAccess where
  block_public_acls : Bool
  block_public_policy : Bool
  ignore_public_acls : Bool
  restrict_public_buckets : Bool
  deriving DecidableEq, Repr

/-- The BLOCK_ACLS preset: blocks public access granted through ACLs while
leaving bucket-policy public access available. -/
def BlockPublicAccess.BLOCK_ACLS : BlockPublicAccess :=
  { block_public_acls := true
    block_public_policy := false
    ignore_public_acls := true
    restrict_public_buckets := false }

/-- The BLOCK_ALL preset (all four switches on), for contrast with the
preset the source actually selects. -/
def BlockPublicAccess.BLOCK_ALL : BlockPublicAccess :=
  { block_public_acls := true
    block_public_policy := true
    ignore_public_acls := true
    restrict_public_buckets := true }

/-- IAM principal of a policy statement; the source uses only
iam.AnyPrincipal (an arbitrary, unauthenticated caller). -/
inductive Principal where
  | AnyPrincipal
  | ServicePrincipal (service : String)
  deriving DecidableEq, Repr

/-- IAM policy statement (iam.PolicyStatement) restricted to the fields
the source sets: actions, resources, principals. -/
structure PolicyStatement where
  actions : List String
  resources : List String
  principals : List Principal
  deriving DecidableEq, Repr

/-- Construction-time properties of the S3 bucket, exactly the keyword
arguments passed to s3.Bucket in the source. -/
structure BucketProps where
  website_index_document : String
  website_error_document : String
  public_read_access : Bool
  block_public_access : BlockPublicAccess
  removal_policy : RemovalPolicy
  auto_delete_objects : Bool
  deriving DecidableEq, Repr

/-- An S3 bucket resource: its construct id, its construction properties and
the resource-policy statements attached to it. -/
structure Bucket where
  id : String
  props : BucketProps
  policy_statements : List PolicyStatement
  deriving DecidableEq, Repr

/-- ARN of the bucket itself. -/
def Bucket.bucket_arn (b : Bucket) : String :=
  "arn:aws:s3:::" ++ b.id

/-- ARN matching the objects under the bucket that fit the key pattern
(Bucket.arn_for_objects in the toolkit). -/
def Bucket.arn_for_objects (b : Bucket) (key_pattern : String) : String :=
  b.bucket_arn ++ "/" ++ key_pattern

/-- Website endpoint URL of the bucket (used only by the BucketURL output). -/
def Bucket.bucket_website_url (b : Bucket) : String :=
  "http://" ++ b.id ++ ".s3-website.amazonaws.com"

/-- CloudFront viewer protocol policy (cloudfront.ViewerProtocolPolicy). -/
inductive ViewerProtocolPolicy where
  | REDIRECT_TO_HTTPS
  | HTTPS_ONLY
  | ALLOW_ALL
  deriving DecidableEq, Repr

/-- CloudFront managed cache policy (cloudfront.CachePolicy); the source
uses CACHING_OPTIMIZED. -/
inductive CachePolicy where
  | CACHING_OPTIMIZED
  | CACHING_DISABLED
  deriving DecidableEq, Repr

/-- A distribution origin; the source constructs origins.S3BucketOrigin from
the website bucket, so the origin carries the bucket's construct id. -/
inductive Origin where
  | S3BucketOrigin (bucket_id : String)
  deriving DecidableEq, Repr

/-- Behavior options of a distribution (cloudfront.BehaviorOptions),
restricted to the fields the source sets. -/
structure BehaviorOptions where
  origin : Origin
  viewer_protocol_policy : ViewerProtocolPolicy
  cache_policy : CachePolicy
  deriving DecidableEq, Repr

/-- A custom error-response mapping (cloudfront.ErrorResponse). -/
structure ErrorResponse where
  http_status : Nat
  response_http_status : Nat
  response_page_path : String
  deriving DecidableEq, Repr

/-- Construction-time properties of the distribution, exactly the keyword
arguments passed to cloudfront.Distribution in the source.  The source
passes no additional_behaviors, so that field keeps the toolkit's default
(empty). -/
structure DistributionProps where
  default_behavior : BehaviorOptions
  additional_behaviors : List (String × BehaviorOptions)
  default_root_object : String
  error_responses : List ErrorResponse
  deriving DecidableEq, Repr

/-- A CloudFront distribution resource. -/
structure Distribution where
  id : String
  props : DistributionProps
  deriving DecidableEq, Repr

/-- All behaviors of a distribution: the default behavior followed by the
additional (path-pattern) behaviors. -/
def Distribution.behaviors (d : Distribution) : List BehaviorOptions :=
  d.props.default_behavior :: d.props.additional_behaviors.map Prod.snd

/-- Public domain name of the distribution (used only by the CloudFrontURL
output; the provider assigns the concrete value at reconciliation time). -/
def Distribution.distribution_domain_name (d : Distribution) : String :=
  d.id ++ ".cloudfront.net"

/-- A content source for the bucket deployment; the source uses only
s3deploy.Source.asset on a local directory path. -/
inductive Source where
  | asset (path : String)
  deriving DecidableEq, Repr

/-- The bucket-deployment content-sync action (s3deploy.BucketDeployment),
restricted to the fields the source sets.  It references the destination
bucket and the distribution by construct id. -/
structure BucketDeployment where
  id : String
  sources : List Source
  destination_bucket : String
  distribution : String
  distribution_paths : List String
  deriving DecidableEq, Repr

/-- A node of the declared resource graph. -/
inductive Resource where
  | bucketRes (b : Bucket)
  | distributionRes (d : Distribution)
  | deploymentRes (dep : BucketDeployment)
  | outputRes (id : String) (value : String)
  deriving DecidableEq, Repr

/-- Everything before the final path separator, as os.path.dirname computes
it for the relative paths this source uses: drop the final component and
the separator before it (empty when no separator occurs). -/
def dirname (p : String) : String :=
  String.mk (((p.data.reverse.dropWhile fun c => c ≠ '/').drop 1).reverse)

/-- Join two path components with a separator, as os.path.join does for the
relative, non-empty components this source uses. -/
def joinPath (a b : String) : String :=
  a ++ "/" ++ b

/-- The repository-relative location of the stack module, standing for the
interpreter's value of the module file attribute in infra_stack.py. -/
def infraStackFile : String :=
  "src/infra/infra_stack.py"

/-- The asset directory handed to Source.asset: the dist directory next to
the infra directory, computed as in the source by taking the dirname twice
and joining with the literal component dist. -/
def distAssetPath : String :=
  joinPath (dirname (dirname infraStackFile)) "dist"

end Infra

namespace Infra

/-- The S3 bucket as first constructed (s3.Bucket call, lines 20 to 28 of
infra_stack.py), before any policy statement is attached. -/
def website_bucket_base : Bucket :=
  { id := "ElectronOrbitalViewerBucket"
    props :=
      { website_index_document := "index.html"
        website_error_document := "index.html"
        public_read_access := true
        block_public_access := BlockPublicAccess.BLOCK_ACLS
        removal_policy := RemovalPolicy.DESTROY
        auto_delete_objects := true }
    policy_statements := [] }

/-- Modelled from the spec: the public-read grant the storage toolkit
attaches when the public-read flag is set (the toolkit's grant code is not
under src/).  Per the spec's invariant, public-read is granted only for
object-read actions, scoped to all objects under the resource. -/
def publicReadGrant (b : Bucket) : PolicyStatement :=
  { actions := ["s3:GetObject"]
    resources := [b.arn_for_objects "*"]
    principals := [Principal.AnyPrincipal] }

/-- The policy statement the source attaches explicitly with
add_to_resource_policy (lines 31 to 37 of infra_stack.py). -/
def explicitPublicReadStatement (b : Bucket) : PolicyStatement :=
  { actions := ["s3:GetObject"]
    resources := [b.arn_for_objects "*"]
    principals := [Principal.AnyPrincipal] }

/-- The website bucket after construction and the explicit
add_to_resource_policy call: the public-read grant induced by the
public-read flag, then the explicitly added statement. -/
def website_bucket : Bucket :=
  let b0 := website_bucket_base
  let b1 :=
    if b0.props.public_read_access then
      { b0 with policy_statements := b0.policy_statements ++ [publicReadGrant b0] }
    else b0
  { b1 with policy_statements := b1.policy_statements ++ [explicitPublicReadStatement b1] }

/-- The CloudFront distribution exactly as declared (cloudfront.Distribution
call, lines 40 to 55 of infra_stack.py). -/
def distribution : Distribution :=
  { id := "ElectronOrbitalViewerDistribution"
    props :=
      { default_behavior :=
          { origin := Origin.S3BucketOrigin website_bucket.id
            viewer_protocol_policy := ViewerProtocolPolicy.REDIRECT_TO_HTTPS
            cache_policy := CachePolicy.CACHING_OPTIMIZED }
        additional_behaviors := []
        default_root_object := "index.html"
        error_responses :=
          [{ http_status := 404
             response_http_status := 200
             response_page_path := "/index.html" }] } }

/-- The content-sync action exactly as declared (s3deploy.BucketDeployment
call, lines 59 to 65 of infra_stack.py), parametric in the source that
Source.asset produced. -/
def bucket_deployment (src : Source) : BucketDeployment :=
  { id := "DeployElectronOrbitalViewer"
    sources := [src]
    destination_bucket := website_bucket.id
    distribution := distribution.id
    distribution_paths := ["/*"] }

/-- The resource graph the stack body declares, given the content source:
the bucket, the distribution, the deployment and the two outputs, in source
order. -/
def stackResources (src : Source) : List Resource :=
  [ Resource.bucketRes website_bucket
  , Resource.distributionRes distribution
  , Resource.deploymentRes (bucket_deployment src)
  , Resource.outputRes "CloudFrontURL"
      ("https://" ++ distribution.distribution_domain_name)
  , Resource.outputRes "BucketURL" website_bucket.bucket_website_url ]

/-- A synthesized stack: its name (the construct id passed to InfraStack)
and the resource graph it declares. -/
structure InfraStack where
  stack_name : String
  resources : List Resource
  deriving DecidableEq, Repr

/-- InfraStack.__init__: constructing the stack under a construct id yields
the declared resource graph.  The construct id names the stack; no declared
resource depends on it, mirroring the source, where the id is consumed only
by the Stack base constructor. -/
def infraStack (construct_id : String) : InfraStack :=
  { stack_name := construct_id
    resources := stackResources (Source.asset distAssetPath) }

/-- Modelled from the spec: the local filesystem state visible to the
toolkit's asset staging (the staging code is not under src/): the set of
directory paths that exist. -/
structure LocalFileSystem where
  existing_dirs : List String
  deriving DecidableEq, Repr

/-- Modelled from the spec: Source.asset's validation of the local asset
directory, which fails immediately and locally when the path does not
exist (the toolkit's Source.asset implementation is not under src/). -/
def sourceAsset (fs : LocalFileSystem) (path : String) : Except String Source :=
  if path ∈ fs.existing_dirs then
    Except.ok (Source.asset path)
  else
    Except.error ("Cannot find asset at " ++ path)

/-- Synthesis of the stack against a local filesystem: Source.asset is the
only construction step that consults the filesystem; if it fails, stack
construction fails before any resource graph exists, and no remote call is
ever part of synthesis (synthesis is a pure local computation). -/
def infraStackSynth (fs : LocalFileSystem) (construct_id : String) :
    Except String InfraStack :=
  match sourceAsset fs distAssetPath with
  | Except.ok src =>
      Except.ok { stack_name := construct_id, resources := stackResources src }
  | Except.error e => Except.error e

/-- Construct id of a resource-graph node, the key the reconciliation
engine diffs on. -/
def Resource.rid : Resource → String
  | Resource.bucketRes b => b.id
  | Resource.distributionRes d => d.id
  | Resource.deploymentRes dep => dep.id
  | Resource.outputRes i _ => i

/-- A change the reconciliation engine would apply. -/
inductive Change where
  | create (r : Resource)
  | delete (r : Resource)
  | modify (old : Resource) (new : Resource)
  deriving DecidableEq, Repr

/-- Modelled from the spec: the external reconciliation engine's diff
(the engine is out of scope of src/): resources present only in the old
graph are deleted, resources present only in the new graph are created, and
resources present in both but with different content are modified. -/
def diffGraphs (old new : List Resource) : List Change :=
  let deleted := (old.filter fun o => new.all fun n => n.rid ≠ o.rid).map Change.delete
  let created := (new.filter fun n => old.all fun o => o.rid ≠ n.rid).map Change.create
  let modified := new.filterMap fun n =>
    match old.find? (fun o => o.rid = n.rid) with
    | some o => if o = n then none else some (Change.modify o n)
    | none => none
  deleted ++ created ++ modified

/-- Predicate picking out distribution nodes of the graph. -/
def Resource.isDistribution : Resource → Bool
  | Resource.distributionRes _ => true
  | _ => false

/-- Predicate picking out bucket nodes of the graph. -/
def Resource.isBucket : Resource → Bool
  | Resource.bucketRes _ => true
  | _ => false

end Infra

namespace Infra

/-- Modelled from the spec: whether stack teardown deletes the provisioned
bucket (provider teardown semantics are not under src/): it does exactly
when the removal policy is DESTROY. -/
def teardownDeletesBucket (p : BucketProps) : Bool :=
  p.removal_policy = RemovalPolicy.DESTROY

/-- Modelled from the spec: whether stack teardown also empties the bucket
of all objects (provider teardown semantics are not under src/): it does
exactly when the removal policy is DESTROY and the auto-delete-objects
flag is set. -/
def teardownDeletesObjects (p : BucketProps) : Bool :=
  teardownDeletesBucket p && p.auto_delete_objects

theorem infraStack_resources (construct_id : String) :
    (infraStack construct_id).resources = stackResources (Source.asset distAssetPath) :=
  rfl

theorem mem_bucketRes_iff (src : Source) (b : Bucket) :
    Resource.bucketRes b ∈ stackResources src ↔ b = website_bucket := by
  simp [stackResources]

theorem mem_distributionRes_iff (src : Source) (d : Distribution) :
    Resource.distributionRes d ∈ stackResources src ↔ d = distribution := by
  simp [stackResources]

theorem mem_deploymentRes_iff (src : Source) (dep : BucketDeployment) :
    Resource.deploymentRes dep ∈ stackResources src ↔ dep = bucket_deployment src := by
  simp [stackResources]

end Infra

namespace Infra

/-- C1: for every instantiation of the InfraStack deployment descriptor, a
storage (bucket) resource is declared, and every declared bucket's website
configuration sets both the index document and the error document to
exactly the string "index.html". -/
theorem c1_bucket_website_documents (construct_id : String) :
    (∃ b, Resource.bucketRes b ∈ (infraStack construct_id).resources) ∧
    ∀ b, Resource.bucketRes b ∈ (infraStack construct_id).resources →
      b.props.website_index_document = "index.html" ∧
      b.props.website_error_document = "index.html" := by
  constructor
  · exact ⟨website_bucket, by rw [infraStack_resources, mem_bucketRes_iff]⟩
  · intro b hb
    rw [infraStack_resources, mem_bucketRes_iff] at hb
    subst hb
    exact ⟨rfl, rfl⟩

/-- C1 witness: the theorem applied to the test suite's construct id and
the declared bucket. -/
theorem c1_bucket_website_documents_witness :
    website_bucket.props.website_index_document = "index.html" ∧
    website_bucket.props.website_error_document = "index.html" :=
  (c1_bucket_website_documents "electron-orbital-viewer").2 website_bucket
    (by decide)

/-- C2: for every instantiation of the InfraStack deployment descriptor,
the produced resource graph contains exactly one distribution resource. -/
theorem c2_exactly_one_distribution (construct_id : String) :
    ((infraStack construct_id).resources.filter Resource.isDistribution).length = 1 :=
  rfl

/-- C3: the declared distribution exists, and every declared distribution
has exactly one behavior (the default behavior), whose viewer protocol
policy redirects all plain-HTTP viewer traffic to HTTPS. -/
theorem c3_single_behavior_redirects_to_https (construct_id : String) :
    (∃ d, Resource.distributionRes d ∈ (infraStack construct_id).resources) ∧
    ∀ d, Resource.distributionRes d ∈ (infraStack construct_id).resources →
      d.behaviors.length = 1 ∧
      ∀ bo ∈ d.behaviors,
        bo.viewer_protocol_policy = ViewerProtocolPolicy.REDIRECT_TO_HTTPS := by
  constructor
  · exact ⟨distribution, by rw [infraStack_resources, mem_distributionRes_iff]⟩
  · intro d hd
    rw [infraStack_resources, mem_distributionRes_iff] at hd
    subst hd
    decide

/-- C3 witness: the theorem applied to the test suite's construct id and
the declared distribution. -/
theorem c3_single_behavior_redirects_to_https_witness :
    distribution.behaviors.length = 1 ∧
    ∀ bo ∈ distribution.behaviors,
      bo.viewer_protocol_policy = ViewerProtocolPolicy.REDIRECT_TO_HTTPS :=
  (c3_single_behavior_redirects_to_https "electron-orbital-viewer").2
    distribution (by decide)

/-- C4: every declared distribution's error-response list is exactly the
single mapping that turns an HTTP 404 into an HTTP 200 serving
/index.html. -/
theorem c4_error_response_mapping (construct_id : String) :
    ∀ d, Resource.distributionRes d ∈ (infraStack construct_id).resources →
      d.props.error_responses =
        [{ http_status := 404
           response_http_status := 200
           response_page_path := "/index.html" }] := by
  intro d hd
  rw [infraStack_resources, mem_distributionRes_iff] at hd
  subst hd
  rfl

/-- C4 witness: the theorem applied to the test suite's construct id and
the declared distribution. -/
theorem c4_error_response_mapping_witness :
    distribution.props.error_responses =
      [{ http_status := 404
         response_http_status := 200
         response_page_path := "/index.html" }] :=
  c4_error_response_mapping "electron-orbital-viewer" distribution (by decide)

/-- C5: for every content source (so regardless of which assets changed),
every declared content-sync action's cache-invalidation path set is
unconditionally the all-paths set containing only the string slash-star. -/
theorem c5_invalidation_paths_all (src : Source) :
    (∃ dep, Resource.deploymentRes dep ∈ stackResources src) ∧
    ∀ dep, Resource.deploymentRes dep ∈ stackResources src →
      dep.distribution_paths = ["/*"] := by
  constructor
  · exact ⟨bucket_deployment src, by rw [mem_deploymentRes_iff]⟩
  · intro dep hdep
    rw [mem_deploymentRes_iff] at hdep
    subst hdep
    rfl

/-- C5 witness: the theorem applied to the asset source the stack actually
declares. -/
theorem c5_invalidation_paths_all_witness :
    (bucket_deployment (Source.asset distAssetPath)).distribution_paths = ["/*"] :=
  (c5_invalidation_paths_all (Source.asset distAssetPath)).2
    (bucket_deployment (Source.asset distAssetPath)) (by decide)

/-- C6: every declared bucket carries both the DESTROY removal policy and
the auto-delete-objects flag, so (under the spec's teardown semantics) on
stack teardown the bucket and all objects it contains are deleted. -/
theorem c6_destroy_and_auto_delete (construct_id : String) :
    ∀ b, Resource.bucketRes b ∈ (infraStack construct_id).resources →
      b.props.removal_policy = RemovalPolicy.DESTROY ∧
      b.props.auto_delete_objects = true ∧
      teardownDeletesBucket b.props = true ∧
      teardownDeletesObjects b.props = true := by
  intro b hb
  rw [infraStack_resources, mem_bucketRes_iff] at hb
  subst hb
  decide

/-- C6 witness: the theorem applied to the test suite's construct id and
the declared bucket. -/
theorem c6_destroy_and_auto_delete_witness :
    website_bucket.props.removal_policy = RemovalPolicy.DESTROY ∧
    website_bucket.props.auto_delete_objects = true ∧
    teardownDeletesBucket website_bucket.props = true ∧
    teardownDeletesObjects website_bucket.props = true :=
  c6_destroy_and_auto_delete "electron-orbital-viewer" website_bucket (by decide)

/-- C7: every policy statement attached to a declared bucket that names the
arbitrary principal permits only the object-read action s3:GetObject and is
scoped to all objects under the bucket; hence no statement grants any other
action to an arbitrary principal. -/
theorem c7_public_grants_read_only (construct_id : String) :
    ∀ b, Resource.bucketRes b ∈ (infraStack construct_id).resources →
      ∀ st ∈ b.policy_statements, Principal.AnyPrincipal ∈ st.principals →
        st.actions = ["s3:GetObject"] ∧
        st.resources = [b.arn_for_objects "*"] := by
  intro b hb
  rw [infraStack_resources, mem_bucketRes_iff] at hb
  subst hb
  decide

/-- C7 witness: the theorem applied to the test suite's construct id, the
declared bucket and the explicitly attached public-read statement. -/
theorem c7_public_grants_read_only_witness :
    (explicitPublicReadStatement website_bucket_base).actions = ["s3:GetObject"] ∧
    (explicitPublicReadStatement website_bucket_base).resources =
      [website_bucket.arn_for_objects "*"] :=
  c7_public_grants_read_only "electron-orbital-viewer" website_bucket (by decide)
    (explicitPublicReadStatement website_bucket_base) (by decide) (by decide)

/-- C8: synthesizing the identical descriptor twice yields identical
resource graphs, and the reconciliation diff of the two graphs is empty
(no creates, deletes or modifications). -/
theorem c8_idempotent_synthesis (construct_id : String) :
    (infraStack construct_id).resources = (infraStack construct_id).resources ∧
    diffGraphs (infraStack construct_id).resources
      (infraStack construct_id).resources = [] :=
  ⟨rfl, by rw [infraStack_resources]; decide⟩

/-- C9: if the local asset directory handed to the content-sync source does
not exist in the local filesystem, stack synthesis fails immediately and
locally with the asset error, and no resource graph is ever produced (so
nothing can be submitted to the remote provider). -/
theorem c9_missing_asset_fails_locally (fs : LocalFileSystem)
    (construct_id : String) (h : distAssetPath ∉ fs.existing_dirs) :
    infraStackSynth fs construct_id =
      Except.error ("Cannot find asset at " ++ distAssetPath) ∧
    ∀ s, infraStackSynth fs construct_id ≠ Except.ok s := by
  have hsrc : sourceAsset fs distAssetPath =
      Except.error ("Cannot find asset at " ++ distAssetPath) := by
    unfold sourceAsset
    exact if_neg h
  constructor
  · unfold infraStackSynth
    rw [hsrc]
  · intro s hcontra
    unfold infraStackSynth at hcontra
    rw [hsrc] at hcontra
    exact Except.noConfusion hcontra

/-- C9 witness: the theorem applied to an empty local filesystem. -/
theorem c9_missing_asset_fails_locally_witness :
    infraStackSynth { existing_dirs := [] } "electron-orbital-viewer" =
      Except.error ("Cannot find asset at " ++ distAssetPath) :=
  (c9_missing_asset_fails_locally { existing_dirs := [] }
    "electron-orbital-viewer" (by decide)).1

/-- C10: every declared bucket blocks ACL-based public access (the
BLOCK_ACLS preset: ACL switches on, policy switches off), while public
read is granted through the bucket resource policy: some attached policy
statement grants s3:GetObject to the arbitrary principal. -/
theorem c10_block_acls_policy_only (construct_id : String) :
    ∀ b, Resource.bucketRes b ∈ (infraStack construct_id).resources →
      b.props.block_public_access = BlockPublicAccess.BLOCK_ACLS ∧
      b.props.block_public_access.block_public_acls = true ∧
      b.props.block_public_access.ignore_public_acls = true ∧
      b.props.block_public_access.block_public_policy = false ∧
      ∃ st ∈ b.policy_statements,
        Principal.AnyPrincipal ∈ st.principals ∧
        st.actions = ["s3:GetObject"] := by
  intro b hb
  rw [infraStack_resources, mem_bucketRes_iff] at hb
  subst hb
  refine ⟨rfl, rfl, rfl, rfl, ?_⟩
  exact ⟨explicitPublicReadStatement website_bucket_base, by decide, by decide, rfl⟩

/-- C10 witness: the theorem applied to the test suite's construct id and
the declared bucket. -/
theorem c10_block_acls_policy_only_witness :
    website_bucket.props.block_public_access = BlockPublicAccess.BLOCK_ACLS :=
  (c10_block_acls_policy_only "electron-orbital-viewer" website_bucket
    (by decide)).1

end Infra
